import Mathlib

/-!
Shallow embedding of the job-orchestration core of the
replicate-media-generation repository, together with theorems checking the
natural-language specification against it.

Embedded source files:
  app/models/job.py            (Job record, JobStatus enum)
  app/tasks/media_tasks.py     (process_media_generation, cleanup_old_files)
  app/api/media.py             (cancel_job endpoint, lines 313-334)
  app/services/replicate_client.py  (ReplicateService.generate_image input building)
  app/services/storage.py      (LocalFileStorage.delete_file)

Collaborators (Generation Client network calls, metadata writes) are modelled
as an explicit environment of oracles returning `Except`, mirroring the fact
that the Python collaborator methods either return a value or raise
`ReplicateAPIError` / `StorageError`.  Time is abstracted to a `Nat` clock
value passed to each invocation.  The `updated_at` column, which is
overwritten on every `update_job` call and referenced by no claim, is omitted
from the record.
-/

namespace MediaGen

/-- JobStatus enum from app/models/job.py (PENDING/PROCESSING/COMPLETED/FAILED/CANCELLED). -/
inductive JobStatus where
  | pending
  | processing
  | completed
  | failed
  | cancelled
deriving DecidableEq, Repr

/-- Job database record from app/models/job.py.  Optional columns are `Option`;
timestamps are abstract `Nat` clock values. -/
structure Job where
  id : Nat
  prompt : String
  model_name : String
  parameters : Option String
  status : JobStatus
  created_at : Nat
  started_at : Option Nat
  completed_at : Option Nat
  retry_count : Nat
  error_message : Option String
  result_url : Option String
  file_path : Option String
  file_size : Option Nat
  external_job_id : Option String
deriving DecidableEq, Repr

/-- Recognized generation parameters, as read by
`ReplicateService.generate_image` via `kwargs.get` (replicate_client.py lines
143-151).  A field is `none` when the key is absent from the parsed JSON
object. -/
structure Params where
  width : Option Nat := none
  height : Option Nat := none
  num_inference_steps : Option Nat := none
  guidance_scale : Option Rat := none
  seed : Option Nat := none
deriving DecidableEq, Repr

/-- The empty parameter dictionary. -/
def Params.empty : Params := {}

/-- The input dictionary built by `generate_image` (replicate_client.py lines
143-154): defaults are applied via `kwargs.get`, then keys whose value is None
are removed, which can only affect `seed`. -/
structure InputData where
  prompt : String
  width : Nat
  height : Nat
  num_outputs : Nat
  num_inference_steps : Nat
  guidance_scale : Rat
  seed : Option Nat
deriving DecidableEq, Repr

/-- The default guidance_scale 3.5 of replicate_client.py line 149, as the
exact rational 7/2 (the Python float 3.5 is exact). -/
def guidanceDefault : Rat := { num := 7, den := 2 }

/-- Embeds the input building of `ReplicateService.generate_image`
(replicate_client.py lines 142-154). -/
def generate_image_input (prompt : String) (p : Params) : InputData :=
  { prompt := prompt
  , width := p.width.getD 1024
  , height := p.height.getD 1024
  , num_outputs := 1
  , num_inference_steps := p.num_inference_steps.getD 4
  , guidance_scale := p.guidance_scale.getD guidanceDefault
  , seed := p.seed }

/-- A poll result as consumed by the task (media_tasks.py lines 140-193):
a status string, an optional output list of URLs, an optional error string. -/
structure PollResult where
  status : String
  output : Option (List String)
  error : Option String
deriving DecidableEq, Repr

/-- The metadata record assembled at media_tasks.py lines 107-113. -/
structure Metadata where
  prompt : String
  model_name : String
  external_job_id : String
  created_at : Nat
  params : Params
deriving DecidableEq, Repr

/-- Python exceptions that can cross the handler boundaries in
process_media_generation.  `replicateAPIError` and `storageError` carry the
message of the raised exception; `typeError` is raised by the runtime at
media_tasks.py line 153 when the coroutine returned by the un-awaited
`storage_service.save_file` call is tuple-unpacked. -/
inductive PyError where
  | replicateAPIError (msg : String)
  | storageError (msg : String)
  | typeError (msg : String)
deriving DecidableEq, Repr

/-- The message `str(e)` of an exception, as interpolated by the handlers. -/
def PyError.msg : PyError → String
  | .replicateAPIError m => m
  | .storageError m => m
  | .typeError m => m

/-- Collaborator oracle.  `submit` models `replicate_service.generate_image`
reaching `create_prediction` (returns the external id or raises
`ReplicateAPIError` with the given message); `poll` models
`replicate_service.check_job_status`, indexed by the handle and by how many
poll calls this invocation has already made, so one oracle can answer
differently on successive polls; `download` models
`replicate_service.download_result` (url, prompt) returning the image bytes;
`saveMetadata` models the awaited `storage_service.save_metadata` call, which
can raise `StorageError`. -/
structure Env where
  submit : String → InputData → Except String String
  poll : String → Nat → Except String PollResult
  download : String → String → Except String (List Nat)
  saveMetadata : Metadata → Except String Unit

/-- Outcome of one task invocation: a normal return of the success dict
(media_tasks.py lines 168-172, unreachable, see `poll_loop`), a normal return
of a failure dict (lines 188, 213), or an exception propagating out of the
task body (Celery then autoretries, per the decorator at lines 44-54). -/
inductive Outcome where
  | completedR (result_url : String) (file_size : Nat)
  | failedR (error : String)
  | raised (e : PyError)
deriving DecidableEq, Repr

/-- Python truthiness of the `external_job_id` column at media_tasks.py line
87: `if not job.external_job_id` is taken when the column is NULL or the empty
string. -/
def isFalsyHandle : Option String → Bool
  | none => true
  | some s => s.isEmpty

/-- Type of the JSON-object parser oracle standing for `json.loads` at
media_tasks.py line 93 restricted to the recognized keys: `none` when the
string is not valid JSON (a `JSONDecodeError`), `some p` when it parses to an
object. -/
abbrev JsonParse := String → Option Params

/-- Parameter parsing at media_tasks.py lines 90-95: params starts empty, is
parsed only when the column is truthy (non-NULL, non-empty), and a decode
error silently leaves it empty. -/
def parseParams (jp : JsonParse) (p : Option String) : Params :=
  match p with
  | none => Params.empty
  | some s => if s = "" then Params.empty else (jp s).getD Params.empty

/-- The outer `except Exception` handler at media_tasks.py lines 215-228: the
job is set FAILED with the error recorded, then the exception is re-raised. -/
def applyOuter (now : Nat) (e : PyError) (j : Job) : Job :=
  { j with status := .failed
         , error_message := some ("Unexpected error: " ++ e.msg)
         , completed_at := some now }

/-- The poll loop of media_tasks.py lines 136-203, by recursion on the
remaining attempts (`max_attempts = 30` at line 137).  `polls` counts the poll
calls already made this invocation.  Returns the job record as left in the
store by the loop, the outcome, and the total poll-call count.  Branches:

* poll raises (line 195): the job is set FAILED with "API error: ..."
  and the exception re-raised;
* status "succeeded" with a non-empty output list (line 146): the result is
  downloaded, then line 153 tuple-unpacks the value of
  `storage_service.save_file(...)` — but `save_file` is `async def`
  (storage.py line 56) and the call is not awaited, so the value is a
  coroutine object and the unpacking raises
  `TypeError: cannot unpack non-iterable coroutine object`; lines 158-172
  (COMPLETED update and success return) are therefore unreachable;
* status "succeeded" with no/empty output: the `if` at line 146 is skipped
  and the `for` proceeds to the next attempt without sleeping;
* status "failed" (line 174): job FAILED with "Generation failed: ...",
  normal return of the failure dict;
* any other status (line 190): sleep and poll again;
* attempts exhausted (lines 205-213): job FAILED with the timeout message,
  normal return of the timeout dict. -/
def poll_loop (env : Env) (now : Nat) : Nat → Job → Nat → Job × Outcome × Nat
  | 0, j, polls =>
      ({ j with status := .failed
              , error_message := some "Job timed out after 5 minutes"
              , completed_at := some now },
       .failedR "Job timed out", polls)
  | fuel + 1, j, polls =>
      match env.poll (j.external_job_id.getD "") polls with
      | .error e =>
          ({ j with status := .failed
                  , error_message := some ("API error: " ++ e)
                  , completed_at := some now },
           .raised (.replicateAPIError e), polls + 1)
      | .ok r =>
          if r.status = "succeeded" then
            match r.output with
            | some (url :: _) =>
                match env.download url j.prompt with
                | .error e =>
                    ({ j with status := .failed
                            , error_message := some ("API error: " ++ e)
                            , completed_at := some now },
                     .raised (.replicateAPIError e), polls + 1)
                | .ok _ =>
                    (j, .raised (.typeError
                        "cannot unpack non-iterable coroutine object"),
                     polls + 1)
            | _ => poll_loop env now fuel j (polls + 1)
          else if r.status = "failed" then
            ({ j with status := .failed
                    , error_message :=
                        some ("Generation failed: "
                              ++ r.error.getD "Unknown error from Replicate")
                    , completed_at := some now },
             .failedR (r.error.getD "Unknown error from Replicate"), polls + 1)
          else
            poll_loop env now fuel j (polls + 1)

/-- Applies the outer exception handler when the loop result is a raised
exception travelling up through the outer `try` of the task body. -/
def finishJob (now : Nat) (oc : Outcome) (j : Job) : Job :=
  match oc with
  | .raised e => applyOuter now e j
  | _ => j

/-- Result of one invocation of process_media_generation: the job record as
left in the store, the task outcome, the list of submit calls made (model and
input of each), the number of poll calls made, and the metadata records
written. -/
structure AdvanceResult where
  job : Job
  outcome : Outcome
  submits : List (String × InputData)
  polls : Nat
  metas : List Metadata
deriving DecidableEq, Repr

/-- One invocation of `process_media_generation` (media_tasks.py lines
55-228), the `advance` operation of the spec.  `retries` is
`self.request.retries`, the number of Celery retries that preceded this
invocation (0 on the first run).  Steps:

* lines 78-84: the job is unconditionally set PROCESSING with
  `started_at = now` and `retry_count = retries` — there is no terminal-status
  guard anywhere in the task;
* lines 87-134: if the handle is falsy, parameters are parsed and
  `generate_image` is called; on `ReplicateAPIError` the job is set FAILED
  with "Failed to start generation: ..." and the exception re-raised (the
  outer handler then overwrites the message with "Unexpected error: ...");
  on success the handle is persisted and the metadata saved (a `StorageError`
  from the metadata write is only caught by the outer handler);
* lines 136-213: the poll loop (`poll_loop`);
* lines 215-228: the outer handler (`applyOuter`) for any raised exception. -/
def process_media_generation (jp : JsonParse) (env : Env) (retries now : Nat)
    (j0 : Job) : AdvanceResult :=
  let j1 := { j0 with status := .processing
                    , started_at := some now
                    , retry_count := retries }
  if isFalsyHandle j1.external_job_id then
    let params := parseParams jp j1.parameters
    let input := generate_image_input j1.prompt params
    match env.submit j1.model_name input with
    | .error e =>
        let j2 := { j1 with status := .failed
                          , error_message :=
                              some ("Failed to start generation: " ++ e)
                          , completed_at := some now }
        { job := applyOuter now (.replicateAPIError e) j2
        , outcome := .raised (.replicateAPIError e)
        , submits := [(j1.model_name, input)]
        , polls := 0
        , metas := [] }
    | .ok h =>
        let j2 := { j1 with external_job_id := some h }
        let md : Metadata :=
          { prompt := j2.prompt
          , model_name := j2.model_name
          , external_job_id := h
          , created_at := j2.created_at
          , params := params }
        match env.saveMetadata md with
        | .error e =>
            { job := applyOuter now (.storageError e) j2
            , outcome := .raised (.storageError e)
            , submits := [(j1.model_name, input)]
            , polls := 0
            , metas := [] }
        | .ok _ =>
            let res := poll_loop env now 30 j2 0
            { job := finishJob now res.2.1 res.1
            , outcome := res.2.1
            , submits := [(j1.model_name, input)]
            , polls := res.2.2
            , metas := [md] }
  else
    let res := poll_loop env now 30 j1 0
    { job := finishJob now res.2.1 res.1
    , outcome := res.2.1
    , submits := []
    , polls := res.2.2
    , metas := [] }

/-- Result of the cancel endpoint: success message, or an HTTPException with
status code and detail. -/
inductive CancelOutcome where
  | ok (message : String)
  | httpError (code : Nat) (detail : String)
deriving DecidableEq, Repr

/-- The status value strings of the JobStatus str-enum. -/
def statusText : JobStatus → String
  | .pending => "pending"
  | .processing => "processing"
  | .completed => "completed"
  | .failed => "failed"
  | .cancelled => "cancelled"

/-- The terminal-status list checked at app/api/media.py line 324. -/
def isTerminal (s : JobStatus) : Bool :=
  s = .completed || s = .failed || s = .cancelled

/-- The cancel endpoint `cancel_job` (app/api/media.py lines 313-334),
restricted to an existing job: a job whose status is in the terminal list is
rejected with HTTP 400 and the record is left unchanged; otherwise the status
is set CANCELLED. -/
def cancel_job (j : Job) : Job × CancelOutcome :=
  if isTerminal j.status then
    (j, .httpError 400 ("Cannot cancel job with status: " ++ statusText j.status))
  else
    ({ j with status := .cancelled },
     .ok ("Job " ++ toString j.id ++ " cancelled successfully"))

/-- State touched by the retention sweep: the job table plus the artifact
store, the latter as the list of job ids whose artifact file exists. -/
structure StoreState where
  jobs : List Job
  fs : List Nat
deriving DecidableEq, Repr

/-- `LocalFileStorage.delete_file` (storage.py lines 170-196) over the
artifact-store model: removes the file and returns true when it exists,
returns false when it is already absent, never an error. -/
def delete_file (fs : List Nat) (jobId : Nat) : Bool × List Nat :=
  if jobId ∈ fs then (true, fs.erase jobId) else (false, fs)

/-- The eligibility filter of the sweep query (media_tasks.py lines 249-257):
status COMPLETED, completed_at strictly before the cutoff, file_path not NULL. -/
def sweepEligible (cutoff : Nat) (j : Job) : Bool :=
  j.status = .completed
    && (match j.completed_at with
        | some t => decide (t < cutoff)
        | none => false)
    && j.file_path.isSome

/-- The retention sweep `cleanup_old_files` (media_tasks.py lines 231-272).
The cutoff is `now - days_old` in seconds.  For each eligible job, line 263
runs `if storage_service.delete_file(job.id):` — but `delete_file` is
`async def` (storage.py line 170) and the call is not awaited, so the
condition tests the coroutine object itself, which is always truthy: the
branch is always taken, `deleted_count` is incremented and the file references
cleared for every eligible job, while the body of `delete_file` never runs and
the artifact store is untouched.  The comment at line 262, "this is already
sync", is wrong.  The `except StorageError: continue` at line 269 is dead for
the same reason.  Returns the new state and `deleted_count`. -/
def cleanup_old_files (now days_old : Nat) (st : StoreState) : StoreState × Nat :=
  let cutoff := now - days_old * 86400
  let deleted_count := (st.jobs.filter (sweepEligible cutoff)).length
  let jobs' := st.jobs.map fun j =>
    if sweepEligible cutoff j then
      { j with file_path := none, result_url := none }
    else j
  ({ jobs := jobs', fs := st.fs }, deleted_count)

/-- The unconditional update at media_tasks.py lines 78-84: status PROCESSING,
started_at overwritten, retry_count set to the Celery retries counter. -/
def startJob (retries now : Nat) (j0 : Job) : Job :=
  { j0 with status := .processing
          , started_at := some now
          , retry_count := retries }

/-- The metadata record of media_tasks.py lines 107-113 for handle `h`. -/
def mdOf (jp : JsonParse) (h : String) (j0 : Job) : Metadata :=
  { prompt := j0.prompt
  , model_name := j0.model_name
  , external_job_id := h
  , created_at := j0.created_at
  , params := parseParams jp j0.parameters }

/-- A job as created by the POST /generate handler (app/api/media.py lines
48-56) with the JobCreate defaults of app/models/job.py: status PENDING, no
timestamps beyond created_at, no error, no result, no handle, retry_count 0. -/
def freshJob (i created : Nat) (prompt model_name : String)
    (parameters : Option String) : Job :=
  { id := i
  , prompt := prompt
  , model_name := model_name
  , parameters := parameters
  , status := .pending
  , created_at := created
  , started_at := none
  , completed_at := none
  , retry_count := 0
  , error_message := none
  , result_url := none
  , file_path := none
  , file_size := none
  , external_job_id := none }

/-- A poll result on which the loop body neither returns nor raises: status
"succeeded" with no usable output (the inner `if` at media_tasks.py line 146
is skipped), or a status that is neither "succeeded" nor "failed" (the `else`
at line 190). -/
def ContinuePR (r : PollResult) : Prop :=
  (r.status = "succeeded" ∧ (r.output = none ∨ r.output = some []))
    ∨ (r.status ≠ "succeeded" ∧ r.status ≠ "failed")

/-- N invocations of the task driven by the Celery autoretry wrapper (the
decorator at media_tasks.py lines 44-54): the k-th invocation, counting from
1, runs with `self.request.retries = k - 1`. -/
def celeryRun (jp : JsonParse) (env : Env) (now : Nat) : Nat → Job → Job
  | 0, j => j
  | n + 1, j => (process_media_generation jp env n now (celeryRun jp env now n j)).job

/-- Job records reachable from a given record through the orchestration
surface: any number of task invocations (with arbitrary collaborator
behaviour, retry counter and clock) and cancel requests. -/
inductive Reaches : Job → Job → Prop where
  | refl (j : Job) : Reaches j j
  | advanceStep {a b : Job} (jp : JsonParse) (env : Env) (retries now : Nat) :
      Reaches a b → Reaches a (process_media_generation jp env retries now b).job
  | cancelStep {a b : Job} : Reaches a b → Reaches a (cancel_job b).1

/-- The claimed result fields (result_url, file_path, file_size) are present:
at least one of them is set. -/
def ResultPresent (j : Job) : Prop :=
  j.result_url ≠ none ∨ j.file_path ≠ none ∨ j.file_size ≠ none

/-- The error_message column holds a non-empty message. -/
def ErrSet (j : Job) : Prop :=
  ∃ m, j.error_message = some m ∧ m ≠ ""

/-- Inductive invariant for reachable jobs: COMPLETED is never assigned, a
FAILED record always carries a non-empty error message, and the result fields
are never populated (the COMPLETED update at media_tasks.py lines 158-166 is
unreachable, see `poll_loop`). -/
def Inv (j : Job) : Prop :=
  j.status ≠ .completed
    ∧ (j.status = .failed → ErrSet j)
    ∧ j.result_url = none ∧ j.file_path = none ∧ j.file_size = none

/-- A JSON-parser oracle under which no string parses (every candidate string
raises JSONDecodeError). -/
def jpReject : JsonParse := fun _ => none

/-- Environment whose first and every poll reports the external job failed. -/
def envPollFailed : Env :=
  { submit := fun _ _ => .ok "ext-9"
  , poll := fun _ _ => .ok { status := "failed", output := none, error := some "boom" }
  , download := fun _ _ => .error "unreachable"
  , saveMetadata := fun _ => .ok () }

/-- Environment whose submit raises a network error. -/
def envSubmitFail : Env :=
  { submit := fun _ _ => .error "Network error: connection refused"
  , poll := fun _ _ => .ok { status := "failed", output := none, error := none }
  , download := fun _ _ => .error "unreachable"
  , saveMetadata := fun _ => .ok () }

/-- Environment whose poll raises a timeout error. -/
def envPollError : Env :=
  { submit := fun _ _ => .ok "ext-9"
  , poll := fun _ _ => .error "Request timed out"
  , download := fun _ _ => .error "unreachable"
  , saveMetadata := fun _ => .ok () }

/-- Environment whose poll always reports the external job still processing. -/
def envProcessing : Env :=
  { submit := fun _ _ => .ok "ext-9"
  , poll := fun _ _ => .ok { status := "processing", output := none, error := none }
  , download := fun _ _ => .error "unreachable"
  , saveMetadata := fun _ => .ok () }

/-- Environment whose poll always reports succeeded with an empty output
list. -/
def envEmptyOutput : Env :=
  { submit := fun _ _ => .ok "ext-9"
  , poll := fun _ _ => .ok { status := "succeeded", output := some [], error := none }
  , download := fun _ _ => .error "unreachable"
  , saveMetadata := fun _ => .ok () }

/-- A freshly created job used as concrete input. -/
def jW : Job := freshJob 1 0 "a cat in a hat" "stable-diffusion" none

/-- A fresh job whose parameters column holds a string that is not valid
JSON. -/
def jWBad : Job := { jW with parameters := some "not json" }

/-- A fresh job that already holds a non-empty external handle (a resumed
job). -/
def jWHandle : Job := { jW with external_job_id := some "ext-1" }

/-- A job record in the terminal COMPLETED state with its result populated,
as left behind by a (hypothetical) successful run. -/
def jWCompleted : Job :=
  { jW with status := .completed
          , external_job_id := some "ext-1"
          , result_url := some "http://localhost:8000/media/1.png"
          , file_path := some "storage/media/1.png"
          , file_size := some 1024
          , started_at := some 2
          , completed_at := some 3 }

/-- Store state for the sweep scenarios: one COMPLETED job, seven days old,
with its artifact present in the store. -/
def stSweep : StoreState :=
  { jobs := [{ jWCompleted with id := 1, completed_at := some 0 }]
  , fs := [1] }

end MediaGen

namespace MediaGen

/-! Helper lemmas about the embedded definitions.  None of these is a claim
theorem; claim theorems are collected at the end of the file. -/

lemma append_ne_empty (s t : String) (h : 0 < s.length) : s ++ t ≠ "" := by
  intro he
  have hl := congrArg String.length he
  rw [String.length_append] at hl
  simp only [String.length_empty] at hl
  omega

lemma pmg_submit_error (jp : JsonParse) (env : Env) (retries now : Nat)
    (j0 : Job) (e : String)
    (hh : isFalsyHandle j0.external_job_id = true)
    (hs : env.submit j0.model_name
        (generate_image_input j0.prompt (parseParams jp j0.parameters))
        = .error e) :
    process_media_generation jp env retries now j0 =
      { job := { j0 with status := .failed
                       , started_at := some now
                       , retry_count := retries
                       , error_message := some ("Unexpected error: " ++ e)
                       , completed_at := some now }
      , outcome := .raised (.replicateAPIError e)
      , submits := [(j0.model_name,
          generate_image_input j0.prompt (parseParams jp j0.parameters))]
      , polls := 0
      , metas := [] } := by
  cases j0
  unfold process_media_generation
  simp only at hh hs ⊢
  rw [hh]
  simp only [if_true, hs]
  rfl

lemma pmg_submit_ok (jp : JsonParse) (env : Env) (retries now : Nat)
    (j0 : Job) (h : String)
    (hh : isFalsyHandle j0.external_job_id = true)
    (hs : env.submit j0.model_name
        (generate_image_input j0.prompt (parseParams jp j0.parameters))
        = .ok h) :
    process_media_generation jp env retries now j0 =
      (match env.saveMetadata (mdOf jp h j0) with
       | .error e =>
           { job := applyOuter now (.storageError e)
                      { startJob retries now j0 with external_job_id := some h }
           , outcome := .raised (.storageError e)
           , submits := [(j0.model_name,
               generate_image_input j0.prompt (parseParams jp j0.parameters))]
           , polls := 0
           , metas := [] }
       | .ok _ =>
           let res := poll_loop env now 30
             { startJob retries now j0 with external_job_id := some h } 0
           { job := finishJob now res.2.1 res.1
           , outcome := res.2.1
           , submits := [(j0.model_name,
               generate_image_input j0.prompt (parseParams jp j0.parameters))]
           , polls := res.2.2
           , metas := [mdOf jp h j0] }) := by
  cases j0
  unfold process_media_generation startJob mdOf
  simp only at hh hs ⊢
  rw [hh]
  simp only [if_true, hs]

lemma pmg_skip (jp : JsonParse) (env : Env) (retries now : Nat) (j0 : Job)
    (hh : isFalsyHandle j0.external_job_id = false) :
    process_media_generation jp env retries now j0 =
      { job := finishJob now
                 (poll_loop env now 30 (startJob retries now j0) 0).2.1
                 (poll_loop env now 30 (startJob retries now j0) 0).1
      , outcome := (poll_loop env now 30 (startJob retries now j0) 0).2.1
      , submits := []
      , polls := (poll_loop env now 30 (startJob retries now j0) 0).2.2
      , metas := [] } := by
  cases j0
  unfold process_media_generation startJob
  simp only at hh ⊢
  rw [hh]
  simp only [Bool.false_eq_true, if_false]

lemma poll_loop_facts (env : Env) (now : Nat) :
    ∀ (fuel : Nat) (j : Job) (polls : Nat),
      (∃ st em ca, (poll_loop env now fuel j polls).1
          = { j with status := st, error_message := em, completed_at := ca })
      ∧ polls ≤ (poll_loop env now fuel j polls).2.2
      ∧ (1 ≤ fuel → polls + 1 ≤ (poll_loop env now fuel j polls).2.2)
      ∧ ((∃ e, (poll_loop env now fuel j polls).2.1 = .raised e)
          ∨ ((poll_loop env now fuel j polls).1.status = .failed
             ∧ (poll_loop env now fuel j polls).1.completed_at = some now
             ∧ ∃ m, (poll_loop env now fuel j polls).1.error_message = some m
                    ∧ m ≠ "")) := by
  intro fuel
  induction fuel with
  | zero =>
      intro j polls
      refine ⟨⟨.failed, some "Job timed out after 5 minutes", some now, rfl⟩,
        le_refl _, ?_, Or.inr ⟨rfl, rfl, "Job timed out after 5 minutes",
          rfl, by decide⟩⟩
      intro hcon
      exact absurd hcon (by decide)
  | succ fuel ih =>
      intro j polls
      rcases hp : env.poll (j.external_job_id.getD "") polls with e | r
      · simp only [poll_loop, hp]
        exact ⟨⟨.failed, some ("API error: " ++ e), some now, rfl⟩,
          by omega, by omega, Or.inl ⟨.replicateAPIError e, rfl⟩⟩
      · simp only [poll_loop, hp]
        by_cases hs : r.status = "succeeded"
        · simp only [hs, if_true]
          rcases ho : r.output with _ | l
          · have h' := ih j (polls + 1)
            simp only []
            refine ⟨h'.1, by omega, fun _ => by have := h'.2.1; omega, h'.2.2.2⟩
          · rcases l with _ | ⟨url, rest⟩
            · have h' := ih j (polls + 1)
              simp only []
              refine ⟨h'.1, by omega, fun _ => by have := h'.2.1; omega, h'.2.2.2⟩
            · rcases hd : env.download url j.prompt with e | d
              · simp only [hd]
                exact ⟨⟨.failed, some ("API error: " ++ e), some now, rfl⟩,
                  by omega, by omega, Or.inl ⟨.replicateAPIError e, rfl⟩⟩
              · simp only [hd]
                refine ⟨⟨j.status, j.error_message, j.completed_at, ?_⟩,
                  by omega, by omega,
                  Or.inl ⟨.typeError "cannot unpack non-iterable coroutine object",
                    rfl⟩⟩
                cases j; rfl
        · simp only [hs, if_false]
          by_cases hf : r.status = "failed"
          · simp only [hf, if_true]
            refine ⟨⟨.failed, some ("Generation failed: "
                ++ r.error.getD "Unknown error from Replicate"), some now, rfl⟩,
              by omega, by omega, Or.inr ⟨by simp, by simp, _, rfl, ?_⟩⟩
            exact append_ne_empty _ _ (by decide)
          · simp only [hf, if_false]
            have h' := ih j (polls + 1)
            refine ⟨h'.1, by omega, fun _ => by have := h'.2.1; omega, h'.2.2.2⟩

lemma poll_loop_timeout (env : Env) (now : Nat)
    (hc : ∀ h k, ∃ r, env.poll h k = .ok r ∧ ContinuePR r) :
    ∀ (fuel : Nat) (j : Job) (polls : Nat),
      poll_loop env now fuel j polls
        = ({ j with status := .failed
                  , error_message := some "Job timed out after 5 minutes"
                  , completed_at := some now },
           .failedR "Job timed out", polls + fuel) := by
  intro fuel
  induction fuel with
  | zero => intro j polls; rfl
  | succ fuel ih =>
      intro j polls
      obtain ⟨r, hr, hcont⟩ := hc (j.external_job_id.getD "") polls
      have harith : polls + 1 + fuel = polls + (fuel + 1) := by omega
      rcases hcont with ⟨hs, ho⟩ | ⟨hs, hf⟩
      · rcases ho with ho | ho
        · simp only [poll_loop, hr, hs, if_true, ho, ih, harith]
        · simp only [poll_loop, hr, hs, if_true, ho, ih, harith]
      · simp only [poll_loop, hr, if_neg hs, if_neg hf, ih, harith]

lemma poll_loop_first_error (env : Env) (now fuel : Nat) (j : Job)
    (polls : Nat) (e : String)
    (hp : env.poll (j.external_job_id.getD "") polls = .error e) :
    poll_loop env now (fuel + 1) j polls
      = ({ j with status := .failed
                , error_message := some ("API error: " ++ e)
                , completed_at := some now },
         .raised (.replicateAPIError e), polls + 1) := by
  simp only [poll_loop, hp]

lemma finish_of_poll (env : Env) (now : Nat) (jX : Job) :
    ∃ em, em ≠ ""
      ∧ finishJob now (poll_loop env now 30 jX 0).2.1 (poll_loop env now 30 jX 0).1
          = { jX with status := .failed
                    , error_message := some em
                    , completed_at := some now } := by
  obtain ⟨⟨st, em0, ca, hshape⟩, hb1, hb2, hdi⟩ := poll_loop_facts env now 30 jX 0
  rcases hoc : (poll_loop env now 30 jX 0).2.1 with ⟨a, b⟩ | ⟨msg⟩ | ⟨e⟩
  · rcases hdi with ⟨e, he⟩ | ⟨h1, h2, m, h3, h4⟩
    · rw [hoc] at he; cases he
    · refine ⟨m, h4, ?_⟩
      show (poll_loop env now 30 jX 0).1 = _
      rw [hshape] at h1 h2 h3 ⊢
      dsimp only at h1 h2 h3
      rw [h1, h2, h3]
  · rcases hdi with ⟨e, he⟩ | ⟨h1, h2, m, h3, h4⟩
    · rw [hoc] at he; cases he
    · refine ⟨m, h4, ?_⟩
      show (poll_loop env now 30 jX 0).1 = _
      rw [hshape] at h1 h2 h3 ⊢
      dsimp only at h1 h2 h3
      rw [h1, h2, h3]
  · refine ⟨"Unexpected error: " ++ e.msg, append_ne_empty _ _ (by decide), ?_⟩
    show applyOuter now e (poll_loop env now 30 jX 0).1 = _
    rw [hshape]
    rfl

lemma pmg_job_eq (jp : JsonParse) (env : Env) (retries now : Nat) (j0 : Job) :
    ∃ em h, em ≠ ""
      ∧ (isFalsyHandle j0.external_job_id = false → h = j0.external_job_id)
      ∧ (process_media_generation jp env retries now j0).job
          = { j0 with status := .failed
                    , started_at := some now
                    , completed_at := some now
                    , retry_count := retries
                    , error_message := some em
                    , external_job_id := h } := by
  by_cases hh : isFalsyHandle j0.external_job_id = true
  · rcases hsub : env.submit j0.model_name
        (generate_image_input j0.prompt (parseParams jp j0.parameters)) with e | hdl
    · refine ⟨"Unexpected error: " ++ e, j0.external_job_id,
        append_ne_empty _ _ (by decide), fun _ => rfl, ?_⟩
      rw [pmg_submit_error jp env retries now j0 e hh hsub]
    · rw [pmg_submit_ok jp env retries now j0 hdl hh hsub]
      rcases hm : env.saveMetadata (mdOf jp hdl j0) with e | u
      · refine ⟨"Unexpected error: " ++ e, some hdl,
          append_ne_empty _ _ (by decide), ?_, ?_⟩
        · intro hf; rw [hh] at hf; cases hf
        · simp only [hm]
          cases j0; rfl
      · simp only [hm]
        obtain ⟨em, hem, hfin⟩ := finish_of_poll env now
          { startJob retries now j0 with external_job_id := some hdl }
        refine ⟨em, some hdl, hem, ?_, ?_⟩
        · intro hf; rw [hh] at hf; cases hf
        · rw [hfin]
          cases j0; rfl
  · have hh' : isFalsyHandle j0.external_job_id = false := by
      cases hb : isFalsyHandle j0.external_job_id
      · rfl
      · exact absurd hb hh
    rw [pmg_skip jp env retries now j0 hh']
    obtain ⟨em, hem, hfin⟩ := finish_of_poll env now (startJob retries now j0)
    refine ⟨em, j0.external_job_id, hem, fun _ => rfl, ?_⟩
    show finishJob now _ _ = _
    rw [hfin]
    cases j0; rfl

end MediaGen

namespace MediaGen

lemma pmg_status_failed (jp : JsonParse) (env : Env) (retries now : Nat)
    (j0 : Job) :
    (process_media_generation jp env retries now j0).job.status = .failed := by
  obtain ⟨em, h, hem, hpre, heq⟩ := pmg_job_eq jp env retries now j0
  rw [heq]

lemma pmg_err_set (jp : JsonParse) (env : Env) (retries now : Nat) (j0 : Job) :
    ErrSet (process_media_generation jp env retries now j0).job := by
  obtain ⟨em, h, hem, hpre, heq⟩ := pmg_job_eq jp env retries now j0
  rw [heq]
  exact ⟨em, rfl, hem⟩

lemma pmg_retry_count (jp : JsonParse) (env : Env) (retries now : Nat)
    (j0 : Job) :
    (process_media_generation jp env retries now j0).job.retry_count
      = retries := by
  obtain ⟨em, h, hem, hpre, heq⟩ := pmg_job_eq jp env retries now j0
  rw [heq]

lemma pmg_result_fields (jp : JsonParse) (env : Env) (retries now : Nat)
    (j0 : Job) :
    (process_media_generation jp env retries now j0).job.result_url
        = j0.result_url
      ∧ (process_media_generation jp env retries now j0).job.file_path
          = j0.file_path
      ∧ (process_media_generation jp env retries now j0).job.file_size
          = j0.file_size := by
  obtain ⟨em, h, hem, hpre, heq⟩ := pmg_job_eq jp env retries now j0
  rw [heq]
  exact ⟨rfl, rfl, rfl⟩

lemma pmg_handle_preserved (jp : JsonParse) (env : Env) (retries now : Nat)
    (j0 : Job) (hh : isFalsyHandle j0.external_job_id = false) :
    (process_media_generation jp env retries now j0).job.external_job_id
      = j0.external_job_id := by
  obtain ⟨em, h, hem, hpre, heq⟩ := pmg_job_eq jp env retries now j0
  rw [heq]
  exact hpre hh

lemma pmg_no_submit (jp : JsonParse) (env : Env) (retries now : Nat)
    (j0 : Job) (hh : isFalsyHandle j0.external_job_id = false) :
    (process_media_generation jp env retries now j0).submits = [] := by
  rw [pmg_skip jp env retries now j0 hh]

lemma pmg_one_submit (jp : JsonParse) (env : Env) (retries now : Nat)
    (j0 : Job) (hh : isFalsyHandle j0.external_job_id = true) :
    (process_media_generation jp env retries now j0).submits
      = [(j0.model_name,
          generate_image_input j0.prompt (parseParams jp j0.parameters))] := by
  rcases hsub : env.submit j0.model_name
      (generate_image_input j0.prompt (parseParams jp j0.parameters)) with e | hdl
  · rw [pmg_submit_error jp env retries now j0 e hh hsub]
  · rw [pmg_submit_ok jp env retries now j0 hdl hh hsub]
    rcases hm : env.saveMetadata (mdOf jp hdl j0) with e | u
    · simp only [hm]
    · simp only [hm]

lemma pmg_calls_pos (jp : JsonParse) (env : Env) (retries now : Nat)
    (j0 : Job) :
    1 ≤ (process_media_generation jp env retries now j0).submits.length
        + (process_media_generation jp env retries now j0).polls := by
  by_cases hh : isFalsyHandle j0.external_job_id = true
  · rw [pmg_one_submit jp env retries now j0 hh]
    simp
  · have hh' : isFalsyHandle j0.external_job_id = false := by
      cases hb : isFalsyHandle j0.external_job_id
      · rfl
      · exact absurd hb hh
    rw [pmg_skip jp env retries now j0 hh']
    have hb := (poll_loop_facts env now 30 (startJob retries now j0) 0).2.2.1
    have := hb (by omega)
    simp only [List.length_nil]
    omega

lemma inv_advance (jp : JsonParse) (env : Env) (retries now : Nat) {b : Job}
    (hb : Inv b) : Inv (process_media_generation jp env retries now b).job := by
  obtain ⟨em, h, hem, hpre, heq⟩ := pmg_job_eq jp env retries now b
  obtain ⟨hc, hf, hr1, hr2, hr3⟩ := hb
  rw [heq]
  refine ⟨by simp, fun _ => ⟨em, rfl, hem⟩, ?_, ?_, ?_⟩
  · exact hr1
  · exact hr2
  · exact hr3

lemma inv_cancel {b : Job} (hb : Inv b) : Inv (cancel_job b).1 := by
  obtain ⟨hc, hf, hr1, hr2, hr3⟩ := hb
  unfold cancel_job
  by_cases ht : isTerminal b.status = true
  · simp only [ht, if_true]
    exact ⟨hc, hf, hr1, hr2, hr3⟩
  · simp only [ht, Bool.false_eq_true, if_false]
    refine ⟨by simp, ?_, hr1, hr2, hr3⟩
    intro hcon
    simp only at hcon
    cases hcon

lemma reaches_inv {a b : Job} (ha : Inv a) (h : Reaches a b) : Inv b := by
  induction h with
  | refl => exact ha
  | advanceStep jp env retries now _ ih => exact inv_advance jp env retries now ih
  | cancelStep _ ih => exact inv_cancel ih

lemma inv_fresh (i c : Nat) (p m : String) (ps : Option String) :
    Inv (freshJob i c p m ps) := by
  refine ⟨?_, ?_, rfl, rfl, rfl⟩
  · intro hcon
    simp [freshJob] at hcon
  · intro hcon
    simp [freshJob] at hcon

end MediaGen
namespace MediaGen

lemma finish_params (now : Nat) (oc : Outcome) (j : Job) (p : Option String) :
    finishJob now oc { j with parameters := p }
      = { finishJob now oc j with parameters := p } := by
  cases oc <;> rfl

lemma poll_loop_params (env : Env) (now : Nat) :
    ∀ (fuel : Nat) (j : Job) (p : Option String) (polls : Nat),
      poll_loop env now fuel { j with parameters := p } polls
        = ({ (poll_loop env now fuel j polls).1 with parameters := p },
           (poll_loop env now fuel j polls).2.1,
           (poll_loop env now fuel j polls).2.2) := by
  intro fuel
  induction fuel with
  | zero => intro j p polls; cases j; rfl
  | succ fuel ih =>
      intro j p polls
      cases j with
      | mk idv pr mn pa st cra sta cpa rc em ru fp fs ej =>
        rcases hp : env.poll (ej.getD "") polls with e | r
        · simp only [poll_loop, hp]
        · simp only [poll_loop, hp]
          by_cases hs : r.status = "succeeded"
          · simp only [hs, if_true]
            rcases ho : r.output with _ | l
            · dsimp only
              exact ih (Job.mk idv pr mn pa st cra sta cpa rc em ru fp fs ej)
                p (polls + 1)
            · rcases l with _ | ⟨url, rest⟩
              · dsimp only
                exact ih (Job.mk idv pr mn pa st cra sta cpa rc em ru fp fs ej)
                  p (polls + 1)
              · rcases hd : env.download url pr with e | d
                · simp only [hd]
                · simp only [hd]
          · simp only [hs, if_false]
            by_cases hf : r.status = "failed"
            · simp only [hf, if_true]
            · simp only [hf, if_false]
              exact ih (Job.mk idv pr mn pa st cra sta cpa rc em ru fp fs ej)
                p (polls + 1)

end MediaGen

namespace MediaGen

lemma pmg_params (jp : JsonParse) (env : Env) (retries now : Nat) (j : Job)
    (p : Option String)
    (hpp : parseParams jp p = parseParams jp j.parameters) :
    process_media_generation jp env retries now { j with parameters := p }
      = { process_media_generation jp env retries now j with
          job := { (process_media_generation jp env retries now j).job with
                   parameters := p } } := by
  cases j with
  | mk idv pr mn pa st cra sta cpa rc em ru fp fs ej =>
    simp only at hpp
    by_cases hh : isFalsyHandle ej = true
    · rcases hsub : env.submit mn (generate_image_input pr (parseParams jp pa))
          with e | hdl
      · have hsub' : env.submit mn (generate_image_input pr (parseParams jp p))
            = .error e := by rw [hpp]; exact hsub
        rw [pmg_submit_error jp env retries now
            (Job.mk idv pr mn p st cra sta cpa rc em ru fp fs ej) e hh hsub']
        rw [pmg_submit_error jp env retries now
            (Job.mk idv pr mn pa st cra sta cpa rc em ru fp fs ej) e hh hsub]
        simp only [hpp]
      · have hsub' : env.submit mn (generate_image_input pr (parseParams jp p))
            = .ok hdl := by rw [hpp]; exact hsub
        rw [pmg_submit_ok jp env retries now
            (Job.mk idv pr mn p st cra sta cpa rc em ru fp fs ej) hdl hh hsub']
        rw [pmg_submit_ok jp env retries now
            (Job.mk idv pr mn pa st cra sta cpa rc em ru fp fs ej) hdl hh hsub]
        have hmd : mdOf jp hdl
              (Job.mk idv pr mn p st cra sta cpa rc em ru fp fs ej)
            = mdOf jp hdl
              (Job.mk idv pr mn pa st cra sta cpa rc em ru fp fs ej) := by
          unfold mdOf
          simp only [hpp]
        rw [hmd]
        rcases hm : env.saveMetadata (mdOf jp hdl
            (Job.mk idv pr mn pa st cra sta cpa rc em ru fp fs ej)) with e | u
        · simp only [hm, hpp]
          rfl
        · simp only [hm]
          have hl := poll_loop_params env now 30
            { startJob retries now
                (Job.mk idv pr mn pa st cra sta cpa rc em ru fp fs ej) with
              external_job_id := some hdl } p 0
          dsimp only [startJob] at hl ⊢
          rw [hl, finish_params]
          simp only [hpp]
    · have hh' : isFalsyHandle ej = false := by
        cases hb : isFalsyHandle ej
        · rfl
        · exact absurd hb hh
      rw [pmg_skip jp env retries now
          (Job.mk idv pr mn p st cra sta cpa rc em ru fp fs ej) hh']
      rw [pmg_skip jp env retries now
          (Job.mk idv pr mn pa st cra sta cpa rc em ru fp fs ej) hh']
      have hl := poll_loop_params env now 30
        (startJob retries now
          (Job.mk idv pr mn pa st cra sta cpa rc em ru fp fs ej)) p 0
      dsimp only [startJob] at hl ⊢
      rw [hl, finish_params]

end MediaGen
namespace MediaGen

/-- C1: the claim fails on the code.  At a COMPLETED job with its handle set,
one further invocation of the task makes a poll call (one collaborator call,
not zero), changes the record, and leaves the job FAILED: the terminal status
is not immutable because the task has no terminal-status guard (media_tasks.py
lines 75-84 unconditionally set PROCESSING). -/
theorem C1_counterexample :
    isTerminal jWCompleted.status = true
    ∧ (process_media_generation jpReject envPollFailed 1 7 jWCompleted).polls = 1
    ∧ (process_media_generation jpReject envPollFailed 1 7 jWCompleted).job.status
        = .failed
    ∧ (process_media_generation jpReject envPollFailed 1 7 jWCompleted).job
        ≠ jWCompleted := by
  decide

/-- C1 amended: a further invocation of the task on a job whose status is
terminal is not a no-op: for every collaborator behaviour it performs at least
one collaborator call (a submit when the handle is falsy, otherwise at least
one poll) and leaves the job FAILED, overwriting the terminal status. -/
theorem C1_amended (jp : JsonParse) (env : Env) (retries now : Nat) (j0 : Job)
    (_hT : isTerminal j0.status = true) :
    (process_media_generation jp env retries now j0).job.status = .failed
    ∧ 1 ≤ (process_media_generation jp env retries now j0).submits.length
          + (process_media_generation jp env retries now j0).polls :=
  ⟨pmg_status_failed jp env retries now j0, pmg_calls_pos jp env retries now j0⟩

/-- Witness for C1 amended at a concrete COMPLETED job and environment. -/
theorem C1_amended_witness :
    isTerminal jWCompleted.status = true
    ∧ ((process_media_generation jpReject envPollFailed 1 7 jWCompleted).job.status
          = .failed
       ∧ 1 ≤ (process_media_generation jpReject envPollFailed 1 7 jWCompleted).submits.length
             + (process_media_generation jpReject envPollFailed 1 7 jWCompleted).polls) :=
  ⟨by decide, C1_amended jpReject envPollFailed 1 7 jWCompleted (by decide)⟩

/-- C2: confirmed.  When the external handle is already non-empty (the
truthiness test at media_tasks.py line 87 fails), the invocation performs no
submit call and the handle column is returned unchanged: the orchestration
path never overwrites or clears a non-empty handle. -/
theorem C2_idempotent_resume (jp : JsonParse) (env : Env) (retries now : Nat)
    (j0 : Job) (hh : isFalsyHandle j0.external_job_id = false) :
    (process_media_generation jp env retries now j0).submits = []
    ∧ (process_media_generation jp env retries now j0).job.external_job_id
        = j0.external_job_id :=
  ⟨pmg_no_submit jp env retries now j0 hh,
   pmg_handle_preserved jp env retries now j0 hh⟩

/-- Witness for C2 at a concrete job with handle "ext-1". -/
theorem C2_idempotent_resume_witness :
    isFalsyHandle jWHandle.external_job_id = false
    ∧ ((process_media_generation jpReject envPollFailed 0 5 jWHandle).submits = []
       ∧ (process_media_generation jpReject envPollFailed 0 5 jWHandle).job.external_job_id
           = jWHandle.external_job_id) :=
  ⟨by decide, C2_idempotent_resume jpReject envPollFailed 0 5 jWHandle (by decide)⟩

/-- C5: the claim fails on the code.  retry_count is assigned
`self.request.retries` (media_tasks.py line 83), the number of PRIOR Celery
retries, so the first invocation leaves retry_count = 0, not 1 as the claim
requires. -/
theorem C5_counterexample :
    (celeryRun jpReject envSubmitFail 5 1 jW).retry_count = 0
    ∧ (celeryRun jpReject envSubmitFail 5 1 jW).retry_count ≠ 1 := by
  decide

/-- C5 amended: every invocation sets retry_count to the Celery retries
counter of that invocation, so after N invocations, the k-th running with
retries = k - 1, the record shows retry_count = N - 1; a job handled once
ends with retry_count = 0. -/
theorem C5_amended :
    (∀ (jp : JsonParse) (env : Env) (retries now : Nat) (j0 : Job),
      (process_media_generation jp env retries now j0).job.retry_count = retries)
    ∧ (∀ (jp : JsonParse) (env : Env) (now N : Nat) (j0 : Job), 1 ≤ N →
        (celeryRun jp env now N j0).retry_count = N - 1) := by
  refine ⟨pmg_retry_count, ?_⟩
  intro jp env now N j0 hN
  cases N with
  | zero => omega
  | succ n =>
      show (process_media_generation jp env n now (celeryRun jp env now n j0)).job.retry_count
        = n + 1 - 1
      rw [pmg_retry_count]
      omega

/-- Witness for C5 amended: three invocations leave retry_count = 2. -/
theorem C5_amended_witness :
    1 ≤ 3 ∧ (celeryRun jpReject envSubmitFail 5 3 jW).retry_count = 3 - 1 :=
  ⟨by decide, C5_amended.2 jpReject envSubmitFail 5 3 jW (by decide)⟩

end MediaGen

namespace MediaGen

/-- C3: the claim fails on the code.  A network error from the Generation
Client during submission does not leave the job PROCESSING: the handlers at
media_tasks.py lines 126-134 and 215-228 set the job FAILED with the error
recorded and re-raise.  There is no retryable/fatal classification anywhere
in the task. -/
theorem C3_counterexample :
    (process_media_generation jpReject envSubmitFail 0 5 jW).job.status = .failed
    ∧ (process_media_generation jpReject envSubmitFail 0 5 jW).job.status
        ≠ .processing
    ∧ (process_media_generation jpReject envSubmitFail 0 5 jW).job.error_message
        = some "Unexpected error: Network error: connection refused"
    ∧ (process_media_generation jpReject envSubmitFail 0 5 jW).outcome
        = .raised (.replicateAPIError "Network error: connection refused") := by
  decide

/-- C3 amended: every Generation Client error, retryable or not, transitions
the job to FAILED with the error recorded and re-raises the exception (which
the Celery autoretry decorator then retries).  The handle is still falsy after
a submission failure (so the next attempt retries submission) and preserved
after a poll failure (so the next attempt resumes polling). -/
theorem C3_amended :
    (∀ (jp : JsonParse) (env : Env) (retries now : Nat) (j0 : Job) (e : String),
      isFalsyHandle j0.external_job_id = true →
      env.submit j0.model_name
          (generate_image_input j0.prompt (parseParams jp j0.parameters))
          = .error e →
      (process_media_generation jp env retries now j0).job.status = .failed
      ∧ (process_media_generation jp env retries now j0).job.error_message
          = some ("Unexpected error: " ++ e)
      ∧ (process_media_generation jp env retries now j0).job.external_job_id
          = j0.external_job_id
      ∧ (process_media_generation jp env retries now j0).outcome
          = .raised (.replicateAPIError e)
      ∧ (process_media_generation jp env retries now j0).polls = 0)
    ∧ (∀ (jp : JsonParse) (env : Env) (retries now : Nat) (j0 : Job) (e : String),
        isFalsyHandle j0.external_job_id = false →
        env.poll (j0.external_job_id.getD "") 0 = .error e →
        (process_media_generation jp env retries now j0).job.status = .failed
        ∧ (process_media_generation jp env retries now j0).job.error_message
            = some ("Unexpected error: " ++ e)
        ∧ (process_media_generation jp env retries now j0).job.external_job_id
            = j0.external_job_id
        ∧ (process_media_generation jp env retries now j0).outcome
            = .raised (.replicateAPIError e)
        ∧ (process_media_generation jp env retries now j0).polls = 1) := by
  constructor
  · intro jp env retries now j0 e hh hs
    rw [pmg_submit_error jp env retries now j0 e hh hs]
    exact ⟨rfl, rfl, rfl, rfl, rfl⟩
  · intro jp env retries now j0 e hh hp
    have hp' : env.poll ((startJob retries now j0).external_job_id.getD "") 0
        = .error e := hp
    have h30 : poll_loop env now 30 (startJob retries now j0) 0
        = ({ startJob retries now j0 with
               status := .failed
             , error_message := some ("API error: " ++ e)
             , completed_at := some now },
           .raised (.replicateAPIError e), 0 + 1) :=
      poll_loop_first_error env now 29 (startJob retries now j0) 0 e hp'
    rw [pmg_skip jp env retries now j0 hh]
    rw [h30]
    exact ⟨rfl, rfl, rfl, rfl, rfl⟩

/-- Witness for C3 amended: both conjuncts at concrete inputs — a submit
failure on a fresh job and a first-poll failure on a resumed job. -/
theorem C3_amended_witness :
    isFalsyHandle jW.external_job_id = true
    ∧ isFalsyHandle jWHandle.external_job_id = false
    ∧ ((process_media_generation jpReject envSubmitFail 0 5 jW).job.status = .failed
       ∧ (process_media_generation jpReject envSubmitFail 0 5 jW).job.error_message
           = some ("Unexpected error: " ++ "Network error: connection refused")
       ∧ (process_media_generation jpReject envSubmitFail 0 5 jW).job.external_job_id
           = jW.external_job_id
       ∧ (process_media_generation jpReject envSubmitFail 0 5 jW).outcome
           = .raised (.replicateAPIError "Network error: connection refused")
       ∧ (process_media_generation jpReject envSubmitFail 0 5 jW).polls = 0)
    ∧ ((process_media_generation jpReject envPollError 0 5 jWHandle).job.status = .failed
       ∧ (process_media_generation jpReject envPollError 0 5 jWHandle).job.error_message
           = some ("Unexpected error: " ++ "Request timed out")
       ∧ (process_media_generation jpReject envPollError 0 5 jWHandle).job.external_job_id
           = jWHandle.external_job_id
       ∧ (process_media_generation jpReject envPollError 0 5 jWHandle).outcome
           = .raised (.replicateAPIError "Request timed out")
       ∧ (process_media_generation jpReject envPollError 0 5 jWHandle).polls = 1) :=
  ⟨by decide, by decide,
   C3_amended.1 jpReject envSubmitFail 0 5 jW "Network error: connection refused"
     (by decide) rfl,
   C3_amended.2 jpReject envPollError 0 5 jWHandle "Request timed out"
     (by decide) rfl⟩

/-- C6: confirmed.  Against a Generation Client whose poll never reports a
terminal external status, the task makes exactly 30 poll calls
(`max_attempts = 30`, media_tasks.py line 137), then sets the job FAILED with
the timeout message and returns the timeout failure dict. -/
theorem C6_timeout (jp : JsonParse) (env : Env) (retries now : Nat) (j0 : Job)
    (hh : isFalsyHandle j0.external_job_id = false)
    (hc : ∀ h k, ∃ r, env.poll h k = .ok r
          ∧ r.status ≠ "succeeded" ∧ r.status ≠ "failed") :
    (process_media_generation jp env retries now j0).polls = 30
    ∧ (process_media_generation jp env retries now j0).job.status = .failed
    ∧ (process_media_generation jp env retries now j0).job.error_message
        = some "Job timed out after 5 minutes"
    ∧ (process_media_generation jp env retries now j0).outcome
        = .failedR "Job timed out" := by
  have hc' : ∀ h k, ∃ r, env.poll h k = .ok r ∧ ContinuePR r := by
    intro h k
    obtain ⟨r, h1, h2, h3⟩ := hc h k
    exact ⟨r, h1, Or.inr ⟨h2, h3⟩⟩
  rw [pmg_skip jp env retries now j0 hh]
  rw [poll_loop_timeout env now hc' 30 (startJob retries now j0) 0]
  exact ⟨rfl, rfl, rfl, rfl⟩

/-- Witness for C6 at a concrete resumed job and an always-processing poll. -/
theorem C6_timeout_witness :
    isFalsyHandle jWHandle.external_job_id = false
    ∧ ((process_media_generation jpReject envProcessing 0 5 jWHandle).polls = 30
       ∧ (process_media_generation jpReject envProcessing 0 5 jWHandle).job.status
           = .failed
       ∧ (process_media_generation jpReject envProcessing 0 5 jWHandle).job.error_message
           = some "Job timed out after 5 minutes"
       ∧ (process_media_generation jpReject envProcessing 0 5 jWHandle).outcome
           = .failedR "Job timed out") :=
  ⟨by decide,
   C6_timeout jpReject envProcessing 0 5 jWHandle (by decide)
     (fun h k => ⟨{ status := "processing", output := none, error := none },
       rfl, by decide, by decide⟩)⟩

/-- C7: the claim fails on the code.  A poll reporting succeeded with an empty
output list is not treated as a fatal protocol violation: the inner `if` at
media_tasks.py line 146 is simply skipped, the loop keeps polling (30 calls,
not 1), and the job ends FAILED with the generic timeout message, which does
not mention the missing output. -/
theorem C7_counterexample :
    (process_media_generation jpReject envEmptyOutput 0 5 jWHandle).polls = 30
    ∧ (process_media_generation jpReject envEmptyOutput 0 5 jWHandle).polls ≠ 1
    ∧ (process_media_generation jpReject envEmptyOutput 0 5 jWHandle).job.status
        = .failed
    ∧ (process_media_generation jpReject envEmptyOutput 0 5 jWHandle).job.error_message
        = some "Job timed out after 5 minutes" := by
  decide

/-- C7 amended: a succeeded poll with empty (or missing) output is silently
skipped and polling continues without sleeping; if every poll reports such a
result the task makes all 30 poll calls and then fails with the timeout
message. -/
theorem C7_amended (jp : JsonParse) (env : Env) (retries now : Nat) (j0 : Job)
    (hh : isFalsyHandle j0.external_job_id = false)
    (hc : ∀ h k, ∃ r, env.poll h k = .ok r ∧ r.status = "succeeded"
          ∧ (r.output = none ∨ r.output = some [])) :
    (process_media_generation jp env retries now j0).polls = 30
    ∧ (process_media_generation jp env retries now j0).job.status = .failed
    ∧ (process_media_generation jp env retries now j0).job.error_message
        = some "Job timed out after 5 minutes"
    ∧ (process_media_generation jp env retries now j0).outcome
        = .failedR "Job timed out" := by
  have hc' : ∀ h k, ∃ r, env.poll h k = .ok r ∧ ContinuePR r := by
    intro h k
    obtain ⟨r, h1, h2, h3⟩ := hc h k
    exact ⟨r, h1, Or.inl ⟨h2, h3⟩⟩
  rw [pmg_skip jp env retries now j0 hh]
  rw [poll_loop_timeout env now hc' 30 (startJob retries now j0) 0]
  exact ⟨rfl, rfl, rfl, rfl⟩

/-- Witness for C7 amended at a concrete resumed job and an
always-succeeded-empty-output poll. -/
theorem C7_amended_witness :
    isFalsyHandle jWHandle.external_job_id = false
    ∧ ((process_media_generation jpReject envEmptyOutput 0 5 jWHandle).polls = 30
       ∧ (process_media_generation jpReject envEmptyOutput 0 5 jWHandle).job.status
           = .failed
       ∧ (process_media_generation jpReject envEmptyOutput 0 5 jWHandle).job.error_message
           = some "Job timed out after 5 minutes"
       ∧ (process_media_generation jpReject envEmptyOutput 0 5 jWHandle).outcome
           = .failedR "Job timed out") :=
  ⟨by decide,
   C7_amended jpReject envEmptyOutput 0 5 jWHandle (by decide)
     (fun h k => ⟨{ status := "succeeded", output := some [], error := none },
       rfl, rfl, Or.inr rfl⟩)⟩

end MediaGen

namespace MediaGen

/-- C4: confirmed.  For any job reachable from a freshly created Pending
record through task invocations and cancel requests, a terminal status other
than Cancelled implies exactly one of \x7berror_message non-empty, result
present\x7d — and a Completed job has no error_message.  Note that on this
code the Completed side is vacuous: the COMPLETED update (media_tasks.py
lines 158-166) is unreachable because line 153 tuple-unpacks the coroutine of
the un-awaited async `save_file` call, so every reachable terminal
non-Cancelled job is FAILED, with a non-empty error message and no result
fields. -/
theorem C4_terminal_exclusive (i c : Nat) (p m : String) (ps : Option String)
    (j : Job) (hr : Reaches (freshJob i c p m ps) j)
    (ht : j.status = .completed ∨ j.status = .failed) :
    ((ErrSet j ∧ ¬ ResultPresent j) ∨ (¬ ErrSet j ∧ ResultPresent j))
    ∧ (j.status = .completed → j.error_message = none) := by
  have hinv := reaches_inv (inv_fresh i c p m ps) hr
  obtain ⟨hc, hf, h1, h2, h3⟩ := hinv
  rcases ht with ht | ht
  · exact absurd ht hc
  · refine ⟨Or.inl ⟨hf ht, ?_⟩, fun hcon => absurd hcon hc⟩
    intro hrp
    rcases hrp with h | h | h
    · exact h h1
    · exact h h2
    · exact h h3

/-- Witness for C4 at the concrete reachable job obtained by one invocation
with a failing submit on a fresh job. -/
theorem C4_terminal_exclusive_witness :
    ((process_media_generation jpReject envSubmitFail 0 5 jW).job.status
        = .completed
      ∨ (process_media_generation jpReject envSubmitFail 0 5 jW).job.status
          = .failed)
    ∧ (((ErrSet (process_media_generation jpReject envSubmitFail 0 5 jW).job
          ∧ ¬ ResultPresent (process_media_generation jpReject envSubmitFail 0 5 jW).job)
        ∨ (¬ ErrSet (process_media_generation jpReject envSubmitFail 0 5 jW).job
           ∧ ResultPresent (process_media_generation jpReject envSubmitFail 0 5 jW).job))
       ∧ ((process_media_generation jpReject envSubmitFail 0 5 jW).job.status
            = .completed
          → (process_media_generation jpReject envSubmitFail 0 5 jW).job.error_message
              = none)) :=
  ⟨by decide,
   C4_terminal_exclusive 1 0 "a cat in a hat" "stable-diffusion" none _
     (Reaches.advanceStep jpReject envSubmitFail 0 5 (Reaches.refl jW))
     (by decide)⟩

/-- C8: the claim fails on the code.  Cancelling a terminal job is indeed
rejected (HTTP 400, record unchanged) and cancelling a Pending job yields
Cancelled, but a subsequent task invocation on the cancelled job is NOT a
no-op returning Cancelled: it submits to the external service (one submit
call) and leaves the job FAILED. -/
theorem C8_counterexample :
    cancel_job jWCompleted
        = (jWCompleted, .httpError 400 "Cannot cancel job with status: completed")
    ∧ (cancel_job jW).1.status = .cancelled
    ∧ (process_media_generation jpReject envPollFailed 0 5 (cancel_job jW).1).submits.length
        = 1
    ∧ (process_media_generation jpReject envPollFailed 0 5 (cancel_job jW).1).job.status
        = .failed
    ∧ (process_media_generation jpReject envPollFailed 0 5 (cancel_job jW).1).job.status
        ≠ .cancelled := by
  decide

/-- C8 amended: cancelling a job already in a terminal state fails with HTTP
400 and leaves the record unchanged; cancelling a Pending job transitions it
to Cancelled; but a subsequent task invocation on the cancelled job (whose
handle is still empty) performs a submit call and leaves the job FAILED — the
task has no cancelled-status guard. -/
theorem C8_amended :
    (∀ j : Job, isTerminal j.status = true →
      cancel_job j
        = (j, .httpError 400 ("Cannot cancel job with status: "
            ++ statusText j.status)))
    ∧ (∀ j : Job, j.status = .pending →
        cancel_job j
          = ({ j with status := .cancelled },
             .ok ("Job " ++ toString j.id ++ " cancelled successfully")))
    ∧ (∀ (jp : JsonParse) (env : Env) (retries now : Nat) (j : Job),
        j.status = .cancelled → isFalsyHandle j.external_job_id = true →
        (process_media_generation jp env retries now j).submits.length = 1
        ∧ (process_media_generation jp env retries now j).job.status = .failed) := by
  refine ⟨?_, ?_, ?_⟩
  · intro j ht
    simp only [cancel_job, ht, if_true]
  · intro j hp
    have ht : isTerminal j.status = false := by rw [hp]; decide
    simp only [cancel_job, ht, Bool.false_eq_true, if_false]
  · intro jp env retries now j _hc hh
    refine ⟨?_, pmg_status_failed jp env retries now j⟩
    rw [pmg_one_submit jp env retries now j hh]
    rfl

/-- Witness for C8 amended at concrete inputs: a COMPLETED job for the
rejection conjunct, a fresh Pending job for the transition conjunct, and the
cancelled fresh job for the invocation conjunct. -/
theorem C8_amended_witness :
    isTerminal jWCompleted.status = true
    ∧ jW.status = .pending
    ∧ (cancel_job jW).1.status = .cancelled
    ∧ cancel_job jWCompleted
        = (jWCompleted, .httpError 400 ("Cannot cancel job with status: "
            ++ statusText jWCompleted.status))
    ∧ cancel_job jW
        = ({ jW with status := .cancelled },
           .ok ("Job " ++ toString jW.id ++ " cancelled successfully"))
    ∧ ((process_media_generation jpReject envPollFailed 0 5 (cancel_job jW).1).submits.length
         = 1
       ∧ (process_media_generation jpReject envPollFailed 0 5 (cancel_job jW).1).job.status
           = .failed) :=
  ⟨by decide, by decide, by decide,
   C8_amended.1 jWCompleted (by decide),
   C8_amended.2.1 jW (by decide),
   C8_amended.2.2 jpReject envPollFailed 0 5 (cancel_job jW).1 (by decide) (by decide)⟩

/-- C9: evaluation of the retention sweep at a concrete store holding one
eligible COMPLETED job whose artifact exists.  The first sweep reports one
reclamation and clears the file references, but the artifact store is
untouched — the file is never deleted, because `delete_file` is `async def`
(storage.py line 170) and the call at media_tasks.py line 263 is not awaited,
so the `if` tests the always-truthy coroutine object and the delete body never
runs (an awaited call would have returned true and removed the file, as
`delete_file` here shows).  The second sweep reports zero reclamations and
leaves the state unchanged. -/
theorem C9_sweep_run :
    (cleanup_old_files 864000 7 stSweep).2 = 1
    ∧ (cleanup_old_files 864000 7 stSweep).1.fs = stSweep.fs
    ∧ ((cleanup_old_files 864000 7 stSweep).1.jobs.map Job.file_path) = [none]
    ∧ ((cleanup_old_files 864000 7 stSweep).1.jobs.map Job.result_url) = [none]
    ∧ ((cleanup_old_files 864000 7 stSweep).1.jobs.map Job.status) = [.completed]
    ∧ delete_file stSweep.fs 1 = (true, [])
    ∧ (cleanup_old_files 864000 7 (cleanup_old_files 864000 7 stSweep).1).2 = 0
    ∧ (cleanup_old_files 864000 7 (cleanup_old_files 864000 7 stSweep).1).1
        = (cleanup_old_files 864000 7 stSweep).1 := by
  decide

end MediaGen

namespace MediaGen

/-- C10: confirmed.  When the parameters column holds a non-null string the
parser rejects (a JSONDecodeError at media_tasks.py line 94), the invocation
silently proceeds with empty parameters: the submit call carries only the
prompt, the model, and the client defaults of `generate_image`
(width 1024, height 1024, num_outputs 1, num_inference_steps 4,
guidance_scale 3.5, no seed), and the whole invocation behaves exactly as if
parameters were NULL — same outcome, polls, metadata, and job record apart
from the parameters column itself. -/
theorem C10_invalid_params (jp : JsonParse) (env : Env) (retries now : Nat)
    (j : Job) (s : String)
    (h1 : j.parameters = some s) (h2 : jp s = none)
    (h3 : isFalsyHandle j.external_job_id = true) :
    (process_media_generation jp env retries now j).submits
        = [(j.model_name, generate_image_input j.prompt Params.empty)]
    ∧ (process_media_generation jp env retries now j).outcome
        = (process_media_generation jp env retries now
            { j with parameters := none }).outcome
    ∧ (process_media_generation jp env retries now j).polls
        = (process_media_generation jp env retries now
            { j with parameters := none }).polls
    ∧ (process_media_generation jp env retries now j).metas
        = (process_media_generation jp env retries now
            { j with parameters := none }).metas
    ∧ (process_media_generation jp env retries now j).job
        = { (process_media_generation jp env retries now
              { j with parameters := none }).job with parameters := some s } := by
  have hpe : parseParams jp (some s) = Params.empty := by
    unfold parseParams
    by_cases he : s = ""
    · simp [he]
    · simp [he, h2]
  have hpp : parseParams jp (some s)
      = parseParams jp ({ j with parameters := none } : Job).parameters := by
    rw [hpe]
    rfl
  have hcongr := pmg_params jp env retries now
    { j with parameters := none } (some s) hpp
  have hjj : ({ { j with parameters := none } with parameters := some s } : Job)
      = j := by
    cases j
    simp only at h1 ⊢
    rw [h1]
  rw [hjj] at hcongr
  rw [hcongr]
  refine ⟨?_, rfl, rfl, rfl, rfl⟩
  show (process_media_generation jp env retries now
    { j with parameters := none }).submits = _
  rw [pmg_one_submit jp env retries now { j with parameters := none } h3]
  rfl

/-- Witness for C10 at a concrete fresh job whose parameters are the invalid
JSON string "not json". -/
theorem C10_invalid_params_witness :
    jWBad.parameters = some "not json"
    ∧ jpReject "not json" = none
    ∧ isFalsyHandle jWBad.external_job_id = true
    ∧ ((process_media_generation jpReject envPollFailed 0 5 jWBad).submits
          = [(jWBad.model_name, generate_image_input jWBad.prompt Params.empty)]
       ∧ (process_media_generation jpReject envPollFailed 0 5 jWBad).outcome
           = (process_media_generation jpReject envPollFailed 0 5
               { jWBad with parameters := none }).outcome
       ∧ (process_media_generation jpReject envPollFailed 0 5 jWBad).polls
           = (process_media_generation jpReject envPollFailed 0 5
               { jWBad with parameters := none }).polls
       ∧ (process_media_generation jpReject envPollFailed 0 5 jWBad).metas
           = (process_media_generation jpReject envPollFailed 0 5
               { jWBad with parameters := none }).metas
       ∧ (process_media_generation jpReject envPollFailed 0 5 jWBad).job
           = { (process_media_generation jpReject envPollFailed 0 5
                 { jWBad with parameters := none }).job
               with parameters := some "not json" }) :=
  ⟨rfl, rfl, by decide,
   C10_invalid_params jpReject envPollFailed 0 5 jWBad "not json" rfl rfl
     (by decide)⟩

end MediaGen
